import Mathlib

/-!
Verification of the USB Mass Storage host driver core
(`usb/usb_host_msc/src/msc_host.c`).

The development shallowly embeds the driver's data model and operations:

* descriptor parsing (`find_msc_interface`, `next_endpoint_desc`,
  `extract_config_from_descriptor`, `is_mass_storage_device`);
* the readiness-polling protocol (`msc_wait_for_ready_state`);
* the synchronous bulk-transfer engine built on the one-shot completion
  semaphore (`wait_for_transfer_done`, `msc_bulk_transfer`,
  `msc_bulk_transfer_zero_cpy`), modelled as an explicit state machine over
  the semaphore, the transfer's status field and the in-flight completion;
* driver and device installation (`msc_host_install`,
  `msc_host_install_device`) as explicit state transitions with resource
  accounting;
* device-info string extraction (`msc_host_get_device_info`).

External collaborators (the USB host transport, FreeRTOS primitives, the
SCSI command helpers) are modelled at their documented interfaces through
environment parameters: every fallible external step is an input of the
embedded function, and its effect on the shared state is made explicit.
-/

/-- The `esp_err_t` values that appear in the driver.  Only identities of
the codes matter, so they are embedded as an enumeration rather than as
the numeric values from `esp_err.h`. -/
inductive EspErr
  | ok
  | fail
  | noMem
  | invalidArg
  | invalidState
  | invalidSize
  | notSupported
  | mscInternal
  | mscStall
  deriving DecidableEq, Repr

/-! ## Descriptor parser (msc_host.c lines 70-152, 202-221) -/

/-- Fields of a USB interface descriptor read by the parser. -/
structure IfaceDesc where
  bInterfaceNumber : Nat
  bInterfaceClass : Nat
  bInterfaceSubClass : Nat
  bInterfaceProtocol : Nat
  deriving DecidableEq, Repr

/-- Fields of a USB endpoint descriptor read by the parser. -/
structure EpDesc where
  bEndpointAddress : Nat
  wMaxPacketSize : Nat
  deriving DecidableEq, Repr

/-- One descriptor record of the configuration-descriptor blob.  The blob is
modelled as the list of descriptors that follow the configuration
descriptor header within `wTotalLength`; `usb_parse_next_descriptor_of_type`
always advances past the current descriptor before testing the type, so the
header itself is never a candidate.  `other` covers every descriptor type
the parser skips (its type tag is irrelevant to the walk). -/
inductive DescItem
  | iface (d : IfaceDesc)
  | endpoint (d : EpDesc)
  | other (bDescriptorType : Nat)
  deriving DecidableEq, Repr

/-- USB_CLASS_MASS_STORAGE. -/
def USB_CLASS_MASS_STORAGE : Nat := 8

/-- SCSI_COMMAND_SET (msc_host.c line 51). -/
def SCSI_COMMAND_SET : Nat := 6

/-- BULK_ONLY_TRANSFER, 0x50 (msc_host.c line 52). -/
def BULK_ONLY_TRANSFER : Nat := 80

/-- The class/subclass/protocol test of `find_msc_interface`
(msc_host.c lines 96-98). -/
def iface_matches (d : IfaceDesc) : Bool :=
  d.bInterfaceClass == USB_CLASS_MASS_STORAGE &&
  d.bInterfaceSubClass == SCSI_COMMAND_SET &&
  d.bInterfaceProtocol == BULK_ONLY_TRANSFER

/-- `is_in_endpoint` (msc_host.c lines 80-83): tests the direction bit
USB_B_ENDPOINT_ADDRESS_EP_DIR_MASK = 0x80 of the endpoint address. -/
def is_in_endpoint (endpoint : Nat) : Bool :=
  endpoint &&& 128 != 0

/-- `find_msc_interface` (msc_host.c lines 85-105): walk the descriptors,
examine each interface descriptor in order, and return the first one whose
class/subclass/protocol triple matches, together with the remaining blob
after it (the shared traversal offset then points at that interface, so a
subsequent endpoint search continues from just after it). -/
def find_msc_interface : List DescItem → Option (IfaceDesc × List DescItem)
  | [] => none
  | DescItem.iface d :: rest =>
    if iface_matches d then some (d, rest) else find_msc_interface rest
  | DescItem.endpoint _ :: rest => find_msc_interface rest
  | DescItem.other _ :: rest => find_msc_interface rest

/-- `next_endpoint_desc` (msc_host.c lines 75-78): the next endpoint-type
descriptor, together with the blob after it. -/
def next_endpoint_desc : List DescItem → Option (EpDesc × List DescItem)
  | [] => none
  | DescItem.endpoint d :: rest => some (d, rest)
  | DescItem.iface _ :: rest => next_endpoint_desc rest
  | DescItem.other _ :: rest => next_endpoint_desc rest

/-- `msc_config_t`: the resolved bulk-only-transport configuration.  The
device structure is `calloc`ed, so unassigned fields stay zero. -/
structure MscConfig where
  iface_num : Nat
  bulk_in_ep : Nat
  bulk_in_mps : Nat
  bulk_out_ep : Nat
  deriving DecidableEq, Repr

/-- Outcome of `extract_config_from_descriptor`.  `assertFail` is the
`assert(ifc_desc)` on msc_host.c line 123 firing (no matching interface):
the function does not return in that case. -/
inductive ExtractOutcome
  | ok (cfg : MscConfig)
  | notSupported
  | assertFail
  deriving DecidableEq, Repr

/-- The endpoint-slot assignment of msc_host.c lines 133-138 and 144-149:
the direction bit of the endpoint address decides whether the descriptor
fills the bulk-in slot (address and max packet size) or the bulk-out slot
(address only). -/
def assign_endpoint (cfg : MscConfig) (e : EpDesc) : MscConfig :=
  if is_in_endpoint e.bEndpointAddress then
    { cfg with bulk_in_ep := e.bEndpointAddress, bulk_in_mps := e.wMaxPacketSize }
  else
    { cfg with bulk_out_ep := e.bEndpointAddress }

/-- `extract_config_from_descriptor` (msc_host.c lines 118-152): find the
matching interface (asserting that one exists), record its interface
number, then take the next two endpoint descriptors — failing with
`ESP_ERR_NOT_SUPPORTED` if either is missing — and assign each to a slot
by its direction bit. -/
def extract_config_from_descriptor (blob : List DescItem) : ExtractOutcome :=
  match find_msc_interface blob with
  | none => ExtractOutcome.assertFail
  | some (ifc, rest) =>
    let cfg0 : MscConfig :=
      { iface_num := ifc.bInterfaceNumber, bulk_in_ep := 0, bulk_in_mps := 0, bulk_out_ep := 0 }
    match next_endpoint_desc rest with
    | none => ExtractOutcome.notSupported
    | some (e1, rest1) =>
      let cfg1 := assign_endpoint cfg0 e1
      match next_endpoint_desc rest1 with
      | none => ExtractOutcome.notSupported
      | some (e2, _) => ExtractOutcome.ok (assign_endpoint cfg1 e2)

/-- `is_mass_storage_device` (msc_host.c lines 202-221), with the device
open and descriptor fetch modelled as succeeding: the device is classified
as mass storage exactly when the interface search finds a match; no match
is reported as boolean `false`, not as an error. -/
def is_mass_storage_device (blob : List DescItem) : Bool :=
  (find_msc_interface blob).isSome

/-! Helper lemmas about the descriptor walk. -/

/-- A prefix containing no matching interface descriptor is skipped by the
interface search. -/
theorem find_msc_interface_append (pre l : List DescItem)
    (h : ∀ d, DescItem.iface d ∈ pre → iface_matches d = false) :
    find_msc_interface (pre ++ l) = find_msc_interface l := by
  induction pre with
  | nil => rfl
  | cons hd tl ih =>
    have htl : ∀ d, DescItem.iface d ∈ tl → iface_matches d = false := by
      intro d hd'
      exact h d (List.mem_cons_of_mem _ hd')
    cases hd with
    | iface d =>
      have hm : iface_matches d = false := h d (List.mem_cons_self _ _)
      simp [find_msc_interface, hm, ih htl]
    | endpoint d => simp [find_msc_interface, ih htl]
    | other t => simp [find_msc_interface, ih htl]

/-- A prefix containing no endpoint descriptor is skipped by the endpoint
search. -/
theorem next_endpoint_desc_append (mid l : List DescItem)
    (h : ∀ e, DescItem.endpoint e ∈ mid → False) :
    next_endpoint_desc (mid ++ l) = next_endpoint_desc l := by
  induction mid with
  | nil => rfl
  | cons hd tl ih =>
    have htl : ∀ e, DescItem.endpoint e ∈ tl → False := by
      intro e he
      exact h e (List.mem_cons_of_mem _ he)
    cases hd with
    | iface d => simp [next_endpoint_desc, ih htl]
    | endpoint d => exact absurd (List.mem_cons_self _ _) (fun hm => h d hm)
    | other t => simp [next_endpoint_desc, ih htl]

/-! ## Readiness protocol (msc_host.c lines 180-200) -/

/-- MSC_NO_SENSE (msc_host.c line 53). -/
def MSC_NO_SENSE : Nat := 0

/-- MSC_NOT_READY (msc_host.c line 54). -/
def MSC_NOT_READY : Nat := 2

/-- MSC_UNIT_ATTENTION (msc_host.c line 55). -/
def MSC_UNIT_ATTENTION : Nat := 6

/-- The sense keys treated as transient by `msc_wait_for_ready_state`
(msc_host.c lines 190-192). -/
def sense_key_transient (key : Nat) : Bool :=
  key == MSC_NOT_READY || key == MSC_UNIT_ATTENTION || key == MSC_NO_SENSE

/-- The `do { ... } while (trials-- && err)` loop of
`msc_wait_for_ready_state` (msc_host.c lines 186-197).  `unitReady i`,
`senseErr i` and `senseKey i` are the results of `scsi_cmd_unit_ready` and
`scsi_cmd_sense` on the `i`-th iteration (external SCSI layer).  The value
returned is paired with the number of loop-body executions, i.e. the
number of TEST-UNIT-READY commands issued.  The `while` condition reads
`trials` before decrementing it, so the body runs once more after the
count reaches zero. -/
def msc_wait_ready_loop (unitReady senseErr : Nat → EspErr) (senseKey : Nat → Nat) :
    Nat → Nat → EspErr × Nat
  | i, 0 =>
    let err := unitReady i
    if err ≠ EspErr.ok then
      if senseErr i ≠ EspErr.ok then (senseErr i, i + 1)
      else if ¬ sense_key_transient (senseKey i) then (EspErr.mscInternal, i + 1)
      else (err, i + 1)
    else (err, i + 1)
  | i, trials + 1 =>
    let err := unitReady i
    if err ≠ EspErr.ok then
      if senseErr i ≠ EspErr.ok then (senseErr i, i + 1)
      else if ¬ sense_key_transient (senseKey i) then (EspErr.mscInternal, i + 1)
      else msc_wait_ready_loop unitReady senseErr senseKey (i + 1) trials
    else (err, i + 1)

/-- `msc_wait_for_ready_state` (msc_host.c lines 180-200): retry budget
`MAX(1, timeout_ms / 100)`, then the post-decrementing do-while loop.
Returns the final `err` together with the number of TEST-UNIT-READY
iterations performed. -/
def msc_wait_for_ready_state (unitReady senseErr : Nat → EspErr) (senseKey : Nat → Nat)
    (timeout_ms : Nat) : EspErr × Nat :=
  msc_wait_ready_loop unitReady senseErr senseKey 0 (max 1 (timeout_ms / 100))

/-- On a device that never reports ready and always returns a transient
sense key, the loop runs its full budget plus one final iteration. -/
theorem msc_wait_ready_loop_never_ready (unitReady senseErr : Nat → EspErr)
    (senseKey : Nat → Nat)
    (h1 : ∀ i, unitReady i ≠ EspErr.ok)
    (h2 : ∀ i, senseErr i = EspErr.ok)
    (h3 : ∀ i, sense_key_transient (senseKey i) = true) :
    ∀ trials i, msc_wait_ready_loop unitReady senseErr senseKey i trials =
      (unitReady (i + trials), i + trials + 1) := by
  intro trials
  induction trials with
  | zero =>
    intro i
    simp [msc_wait_ready_loop, h1 i, h2 i, h3 i]
  | succ t ih =>
    intro i
    rw [show i + (t + 1) = i + 1 + t by omega]
    rw [← ih (i + 1)]
    simp [msc_wait_ready_loop, h1 i, h2 i, h3 i]

/-! ## Transfer engine (msc_host.c lines 448-547)

The synchronous bulk transfer is built from an asynchronous submission, a
one-shot binary completion semaphore given exactly once per submitted
transfer by `transfer_callback` (lines 448-457), and
`wait_for_transfer_done` (lines 459-473).  The interaction is embedded as
a state machine over:

* `sem` — whether the completion semaphore is currently available;
* `status` — the current value of the `xfer->status` field;
* `pending` — the in-flight transfer's eventual status, if a submitted
  transfer has not yet completed.

When a transfer completes, the transport sets `xfer->status` and the
callback gives the semaphore.  Halting and flushing an endpoint with a
transfer in flight retires it (status `canceled`, callback runs); with no
transfer in flight it retires nothing and gives no semaphore. -/

/-- `usb_transfer_status_t` values relevant to the driver. -/
inductive TransferStatus
  | completed
  | error
  | timedOut
  | canceled
  | stall
  | noDevice
  deriving DecidableEq, Repr

/-- State of the completion machinery around one `usb_transfer_t`. -/
structure WaitSt where
  sem : Bool
  status : TransferStatus
  pending : Option TransferStatus
  deriving DecidableEq, Repr

/-- Result of one `wait_for_transfer_done` invocation: either it returns a
status after `haltFlushes` halt+flush operations on the endpoint, or it
blocks forever in the unbounded recovery take (after `haltFlushes`
halt+flush operations). -/
inductive WaitOut
  | ret (status : TransferStatus) (haltFlushes : Nat)
  | hangs (haltFlushes : Nat)
  deriving DecidableEq, Repr

/-- `wait_for_transfer_done` (msc_host.c lines 459-473).  The function
reads `xfer->status` on entry (line 462), then takes the semaphore with
the bounded `xfer->timeout_ms` wait.  If the take succeeds it returns the
status read at entry.  If not, it halts and flushes the endpoint and takes
the semaphore with an unbounded wait: with a transfer in flight the flush
retires it — the callback gives the semaphore, the take succeeds, and
`USB_TRANSFER_STATUS_TIMED_OUT` is returned; with nothing in flight the
unbounded take never returns.  `arrives` says whether an in-flight
completion is signalled during the bounded wait window. -/
def wait_for_transfer_done (st : WaitSt) (arrives : Bool) : WaitOut × WaitSt :=
  let entryStatus := st.status
  if st.sem then
    (WaitOut.ret entryStatus 0, { st with sem := false })
  else
    match st.pending with
    | some s =>
      if arrives then
        (WaitOut.ret entryStatus 0, ⟨false, s, none⟩)
      else
        (WaitOut.ret TransferStatus.timedOut 1, ⟨false, TransferStatus.canceled, none⟩)
    | none => (WaitOut.hangs 1, st)

/-- `msc_endpoint_t`. -/
inductive MscEndpoint
  | epIn
  | epOut
  deriving DecidableEq, Repr

/-- When the transfer completes relative to the first bounded wait:
before `wait_for_transfer_done` is entered, during its bounded wait, or
not within the bounded window at all. -/
inductive Arrival
  | beforeWait
  | duringWait
  | late
  deriving DecidableEq, Repr

/-- Environment of one bulk-transfer call: the result of
`usb_host_transfer_submit`, when the completion arrives, the status the
transport assigns to the completed transfer, the stale value left in
`xfer->status` from earlier use of the shared transfer object, and the
scratch-buffer contents after completion (for IN transfers). -/
structure BulkEnv where
  submitErr : EspErr
  arrival : Arrival
  finalStatus : TransferStatus
  initialStatus : TransferStatus
  bufAfter : List Nat
  deriving DecidableEq, Repr

/-- `usb_round_up_to_mps` (usb_helpers, external): round `num_bytes` up to
a multiple of `mps`.  Natural-number division makes the `mps = 0` case 0,
matching the helper's guard. -/
def usb_round_up_to_mps (num_bytes mps : Nat) : Nat :=
  ((num_bytes + mps - 1) / mps) * mps

/-- The endpoint address chosen on msc_host.c line 479. -/
def selected_endpoint (cfg : MscConfig) (ep : MscEndpoint) : Nat :=
  if ep = MscEndpoint.epIn then cfg.bulk_in_ep else cfg.bulk_out_ep

/-- The submitted byte count of `msc_bulk_transfer`
(msc_host.c lines 481-486): rounded up to the bulk-in max packet size when
the selected endpoint address has the IN direction bit, exactly `size`
otherwise. -/
def msc_bulk_num_bytes (cfg : MscConfig) (size : Nat) (ep : MscEndpoint) : Nat :=
  if is_in_endpoint (selected_endpoint cfg ep) then
    usb_round_up_to_mps size cfg.bulk_in_mps
  else
    size

/-- Caller-visible outcome of `msc_bulk_transfer`: early size rejection,
submit failure, a permanent block inside a `wait_for_transfer_done` call
(with the submitted byte count and the total number of endpoint
halt+flush operations performed), or a return with an error code, byte
count, halt+flush count, and the caller buffer's final contents. -/
inductive BulkOut
  | invalidSize
  | submitFailed (e : EspErr) (numBytes : Nat)
  | hangs (numBytes haltFlushes : Nat)
  | ret (e : EspErr) (numBytes haltFlushes : Nat) (callerData : List Nat)
  deriving DecidableEq, Repr

/-- `msc_bulk_transfer` (msc_host.c lines 475-507).  Size check against the
pre-allocated buffer capacity, byte-count computation (for OUT the caller
data is also copied into the scratch buffer), submission, then the status
handling exactly as written: `wait_for_transfer_done` is invoked a second
time whenever the first invocation's result is not `completed`
(lines 495-496), each invocation operating on the real semaphore state.
On a completed IN transfer, `size` bytes of the scratch buffer are copied
back over the caller's buffer (line 503). -/
def msc_bulk_transfer (cfg : MscConfig) (cap : Nat) (data : List Nat) (size : Nat)
    (ep : MscEndpoint) (env : BulkEnv) : BulkOut :=
  if size ≤ cap then
    let endpoint := selected_endpoint cfg ep
    let nb := msc_bulk_num_bytes cfg size ep
    if env.submitErr ≠ EspErr.ok then BulkOut.submitFailed env.submitErr nb
    else
      let st0 : WaitSt :=
        if env.arrival = Arrival.beforeWait then ⟨true, env.finalStatus, none⟩
        else ⟨false, env.initialStatus, some env.finalStatus⟩
      match wait_for_transfer_done st0 (env.arrival == Arrival.duringWait) with
      | (WaitOut.hangs h1, _) => BulkOut.hangs nb h1
      | (WaitOut.ret s1 h1, st1) =>
        if s1 = TransferStatus.completed then
          BulkOut.ret EspErr.ok nb h1
            (if is_in_endpoint endpoint then env.bufAfter.take size ++ data.drop size else data)
        else
          match wait_for_transfer_done st1 false with
          | (WaitOut.ret s2 h2, _) =>
            BulkOut.ret (if s2 = TransferStatus.stall then EspErr.mscStall else EspErr.mscInternal)
              nb (h1 + h2) data
          | (WaitOut.hangs h2, _) => BulkOut.hangs nb (h1 + h2)
  else BulkOut.invalidSize

/-! ## Zero-copy transfer variant (msc_host.c lines 509-547) -/

/-- The two 'private' transfer-object fields that
`msc_bulk_transfer_zero_cpy` temporarily overwrites: the buffer pointer
(an abstract identifier) and the buffer size. -/
structure XferBuf where
  data_buffer : Nat
  data_buffer_size : Nat
  deriving DecidableEq, Repr

/-- Outcome of `msc_bulk_transfer_zero_cpy`: either the function returns
an error code with the transfer object's buffer fields at return time, or
it blocks forever inside a `wait_for_transfer_done` call (the buffer
fields at that moment are recorded for completeness). -/
inductive ZeroCpyOut
  | ret (e : EspErr) (buf : XferBuf)
  | hangs (haltFlushes : Nat) (buf : XferBuf)
  deriving DecidableEq, Repr

/-- `msc_bulk_transfer_zero_cpy` (msc_host.c lines 509-547).  A
non-DMA-capable buffer is rejected before any substitution.  Otherwise the
caller's buffer pointer and the (possibly rounded-up) size are substituted
into the transfer object, the same submit/wait/classify sequence runs, and
every return statement is reached through the `fail:` label, which first
writes the backed-up buffer pointer and size back into the transfer
object.  The success path falls through into `fail:` as well. -/
def msc_bulk_transfer_zero_cpy (cfg : MscConfig) (xfer0 : XferBuf) (dataPtr size : Nat)
    (ep : MscEndpoint) (dmaCapable : Bool) (env : BulkEnv) : ZeroCpyOut :=
  if ¬ dmaCapable then ZeroCpyOut.ret EspErr.fail xfer0
  else
    let backup_buffer := xfer0.data_buffer
    let backup_size := xfer0.data_buffer_size
    let endpoint := selected_endpoint cfg ep
    let actual_size :=
      if is_in_endpoint endpoint then usb_round_up_to_mps size cfg.bulk_in_mps else size
    let substituted : XferBuf := ⟨dataPtr, actual_size⟩
    let restored : XferBuf := ⟨backup_buffer, backup_size⟩
    if env.submitErr ≠ EspErr.ok then ZeroCpyOut.ret env.submitErr restored
    else
      let st0 : WaitSt :=
        if env.arrival = Arrival.beforeWait then ⟨true, env.finalStatus, none⟩
        else ⟨false, env.initialStatus, some env.finalStatus⟩
      match wait_for_transfer_done st0 (env.arrival == Arrival.duringWait) with
      | (WaitOut.hangs h1, _) => ZeroCpyOut.hangs h1 substituted
      | (WaitOut.ret s1 h1, st1) =>
        if s1 = TransferStatus.completed then ZeroCpyOut.ret EspErr.ok restored
        else
          match wait_for_transfer_done st1 false with
          | (WaitOut.ret s2 _, _) =>
            ZeroCpyOut.ret
              (if s2 = TransferStatus.stall then EspErr.mscStall else EspErr.mscInternal) restored
          | (WaitOut.hangs h2, _) => ZeroCpyOut.hangs (h1 + h2) substituted

/-! ## Driver installation (msc_host.c lines 272-329)

The interaction with the system is embedded as a transition on an
explicit state: whether the singleton `s_msc_driver` is published, and
counters of live semaphores, live transport client registrations and live
heap allocations attributable to the driver.  Acquisition and release are
written out at each step exactly where the code performs them, so a
claimed rollback must be proved, not assumed.  The model is sequential:
the re-check of the singleton inside the critical section
(msc_host.c line 302) therefore always passes when the line-282 check
passed. -/

/-- Global system state touched by `msc_host_install` /
`msc_host_uninstall`. -/
structure SysSt where
  installed : Bool
  sems : Nat
  regs : Nat
  allocs : Nat
  deriving DecidableEq, Repr

/-- The `msc_host_driver_config_t` properties validated on
msc_host.c lines 276-281, as predicates of the caller-provided structure:
whether the config pointer or callback is null, whether a background task
is requested, and whether its stack size or priority is zero. -/
structure MscDriverCfg where
  cfgNull : Bool
  cbNull : Bool
  create_backround_task : Bool
  stackZero : Bool
  prioZero : Bool
  deriving DecidableEq, Repr

/-- Results of the fallible external steps of `msc_host_install`:
`calloc`, `xSemaphoreCreateBinary`, `usb_host_client_register`
(`EspErr.ok` meaning success) and `xTaskCreatePinnedToCore`. -/
structure InstallEnv where
  callocOk : Bool
  semOk : Bool
  registerErr : EspErr
  taskOk : Bool
  deriving DecidableEq, Repr

/-- `msc_host_install` (msc_host.c lines 272-329).  Argument validation,
singleton check, allocation, semaphore creation, client registration,
publication, optional task creation; on any later failure the `fail:`
label clears the singleton, deregisters the client (a no-op error when
registration never happened), deletes the semaphore if it was created,
and frees the allocation, returning the first error encountered. -/
def msc_host_install (c : MscDriverCfg) (e : InstallEnv) (s : SysSt) : EspErr × SysSt :=
  if c.cfgNull then (EspErr.invalidArg, s)
  else if c.cbNull then (EspErr.invalidArg, s)
  else if c.create_backround_task && c.stackZero then (EspErr.invalidArg, s)
  else if c.create_backround_task && c.prioZero then (EspErr.invalidArg, s)
  else if s.installed then (EspErr.invalidState, s)
  else if ¬ e.callocOk then (EspErr.noMem, s)
  else
    -- driver state allocated: allocs + 1
    if ¬ e.semOk then
      -- fail: no semaphore created, deregister is a no-op, allocation freed
      (EspErr.noMem, ⟨false, s.sems, s.regs, s.allocs + 1 - 1⟩)
    else if e.registerErr ≠ EspErr.ok then
      -- fail: semaphore deleted, deregister is a no-op, allocation freed
      (e.registerErr, ⟨false, s.sems + 1 - 1, s.regs, s.allocs + 1 - 1⟩)
    else if c.create_backround_task && ¬ e.taskOk then
      -- singleton was published, then task creation failed: fail clears the
      -- singleton, deregisters, deletes the semaphore and frees
      (EspErr.noMem, ⟨false, s.sems + 1 - 1, s.regs + 1 - 1, s.allocs + 1 - 1⟩)
    else
      (EspErr.ok, ⟨true, s.sems + 1, s.regs + 1, s.allocs + 1⟩)

/-! ## Device installation (msc_host.c lines 351-389) -/

/-- Outcome of `msc_host_install_device`: a returned error code together
with the number of writes made to the caller's `*msc_device_handle`
location, or a crash of the `assert` inside
`extract_config_from_descriptor`. -/
inductive InstallDevOutcome
  | ret (e : EspErr) (handleWrites : Nat)
  | panics
  deriving DecidableEq, Repr

/-- Results of the external steps of `msc_host_install_device`, in program
order: `calloc`, the two critical-section singleton checks, semaphore
creation, `usb_host_device_open`, `usb_host_get_active_config_descriptor`
(with the descriptor blob it yields), `usb_host_transfer_alloc`,
`usb_host_interface_claim`, `scsi_cmd_inquiry`, the SCSI results driving
`msc_wait_for_ready_state`, and `scsi_cmd_read_capacity`. -/
structure InstallDevEnv where
  callocOk : Bool
  driverInstalled : Bool
  clientValid : Bool
  semOk : Bool
  openErr : EspErr
  getDescErr : EspErr
  blob : List DescItem
  xferAllocErr : EspErr
  claimErr : EspErr
  inquiryErr : EspErr
  unitReadyErr : Nat → EspErr
  senseErr : Nat → EspErr
  senseKey : Nat → Nat
  readCapErr : EspErr

/-- WAIT_FOR_READY_TIMEOUT_MS (msc_host.c line 50). -/
def WAIT_FOR_READY_TIMEOUT_MS : Nat := 3000

/-- `msc_host_install_device` (msc_host.c lines 351-389).  Each fallible
step aborts to `fail:` (which tears the device down without touching the
caller's handle location); only after every step has succeeded is
`*msc_device_handle` assigned — exactly once — just before `return
ESP_OK`. -/
def msc_host_install_device (env : InstallDevEnv) : InstallDevOutcome :=
  if ¬ env.callocOk then InstallDevOutcome.ret EspErr.noMem 0
  else if ¬ env.driverInstalled then InstallDevOutcome.ret EspErr.invalidState 0
  else if ¬ env.clientValid then InstallDevOutcome.ret EspErr.invalidState 0
  else if ¬ env.semOk then InstallDevOutcome.ret EspErr.noMem 0
  else if env.openErr ≠ EspErr.ok then InstallDevOutcome.ret env.openErr 0
  else if env.getDescErr ≠ EspErr.ok then InstallDevOutcome.ret env.getDescErr 0
  else
    match extract_config_from_descriptor env.blob with
    | ExtractOutcome.assertFail => InstallDevOutcome.panics
    | ExtractOutcome.notSupported => InstallDevOutcome.ret EspErr.notSupported 0
    | ExtractOutcome.ok _ =>
      if env.xferAllocErr ≠ EspErr.ok then InstallDevOutcome.ret env.xferAllocErr 0
      else if env.claimErr ≠ EspErr.ok then InstallDevOutcome.ret env.claimErr 0
      else if env.inquiryErr ≠ EspErr.ok then InstallDevOutcome.ret env.inquiryErr 0
      else
        let ready :=
          msc_wait_for_ready_state env.unitReadyErr env.senseErr env.senseKey
            WAIT_FOR_READY_TIMEOUT_MS
        if ready.1 ≠ EspErr.ok then InstallDevOutcome.ret ready.1 0
        else if env.readCapErr ≠ EspErr.ok then InstallDevOutcome.ret env.readCapErr 0
        else InstallDevOutcome.ret EspErr.ok 1

/-! ## Device info (msc_host.c lines 404-434) -/

/-- Size of the standard two-byte descriptor header (`bLength`,
`bDescriptorType`); USB_STANDARD_DESC_SIZE in the transport headers. -/
def USB_STANDARD_DESC_SIZE : Nat := 2

/-- The copy length computed on msc_host.c lines 421, 425 and 429:
`size_t len = MIN((bLength - USB_STANDARD_DESC_SIZE) / 2, strDescSize - 1)`,
where `strDescSize` is the fixed capacity (in UTF-16 units) of the fields
of `msc_host_device_info_t` (the capacity constant lives in the component
header, so it is kept as a parameter).  The subtraction, the division and
the `MIN` are performed in C `int` arithmetic — `bLength` is a `uint8_t`
promoted to `int`, so for `bLength < USB_STANDARD_DESC_SIZE` the result is
negative (C division truncates toward zero, embedded as `Int.tdiv`) — and
the assignment to the `size_t` variable then converts modulo `2 ^ 32`
(32-bit target), so `bLength = 0` yields `len = SIZE_MAX`. -/
def str_copy_len (bLength strDescSize : Nat) : Nat :=
  ((min (((bLength : Int) - (USB_STANDARD_DESC_SIZE : Int)).tdiv 2) ((strDescSize : Int) - 1)) %
    (2 ^ 32)).toNat

/-- The region written by `wcsncpy(dst, src, n)`: characters of `src` up
to its terminator, truncated to `n`, zero-padded up to exactly `n`
units. -/
def wcsncpy_write (src : List Nat) (n : Nat) : List Nat :=
  let copied := (src.takeWhile (fun c => c ≠ 0)).take n
  copied ++ List.replicate (n - copied.length) 0

/-- One string field of `msc_host_get_device_info`
(msc_host.c lines 421-423 and analogues): `wcsncpy` of `len` units from
the descriptor's `wData`, then an explicit terminator written at index
`len`; the rest of the caller's field keeps its previous contents. -/
def copy_str_field (dst0 src : List Nat) (bLength strDescSize : Nat) : List Nat :=
  let len := str_copy_len bLength strDescSize
  wcsncpy_write src len ++ 0 :: dst0.drop (len + 1)

/-- A string descriptor as delivered by `usb_host_device_info`: its
declared `bLength` and its UTF-16 payload `wData`. -/
structure StrDescSrc where
  bLength : Nat
  wData : List Nat
  deriving DecidableEq, Repr

/-- Inputs of `msc_host_get_device_info`: argument nullness, the results
of the two transport queries, the identifiers from the device descriptor
and the three cached string descriptors. -/
structure DevInfoEnv where
  deviceNull : Bool
  infoNull : Bool
  getDevDescErr : EspErr
  devInfoErr : EspErr
  idVendor : Nat
  idProduct : Nat
  manufacturer : StrDescSrc
  product : StrDescSrc
  serial : StrDescSrc
  deriving DecidableEq, Repr

/-- The `msc_host_device_info_t` contents produced on success. -/
structure MscDeviceInfo where
  idVendor : Nat
  idProduct : Nat
  sector_size : Nat
  sector_count : Nat
  iManufacturer : List Nat
  iProduct : List Nat
  iSerialNumber : List Nat
  deriving DecidableEq, Repr

/-- Outcome of `msc_host_get_device_info`. -/
inductive DevInfoOut
  | err (e : EspErr)
  | ok (info : MscDeviceInfo)
  deriving DecidableEq, Repr

/-- `msc_host_get_device_info` (msc_host.c lines 404-434).  Null-argument
checks, the two transport queries, then the info structure is filled:
identifiers, disk geometry, and the three UTF-16 strings each copied with
`wcsncpy` and explicitly terminated.  `m0`, `p0`, `s0` are the previous
contents of the caller's fixed-size string fields. -/
def msc_host_get_device_info (strDescSize : Nat) (env : DevInfoEnv)
    (block_size block_count : Nat) (m0 p0 s0 : List Nat) : DevInfoOut :=
  if env.deviceNull then DevInfoOut.err EspErr.invalidArg
  else if env.infoNull then DevInfoOut.err EspErr.invalidArg
  else if env.getDevDescErr ≠ EspErr.ok then DevInfoOut.err env.getDevDescErr
  else if env.devInfoErr ≠ EspErr.ok then DevInfoOut.err env.devInfoErr
  else
    DevInfoOut.ok
      { idVendor := env.idVendor
        idProduct := env.idProduct
        sector_size := block_size
        sector_count := block_count
        iManufacturer :=
          copy_str_field m0 env.manufacturer.wData env.manufacturer.bLength strDescSize
        iProduct := copy_str_field p0 env.product.wData env.product.bLength strDescSize
        iSerialNumber := copy_str_field s0 env.serial.wData env.serial.bLength strDescSize }

/-- Appending a terminator after a zero-padded region still yields a
terminator directly after the unpadded region. -/
theorem append_pad_zero (c : List Nat) (m : Nat) (l : List Nat) :
    ∃ t, (c ++ List.replicate m 0) ++ 0 :: l = c ++ 0 :: t := by
  cases m with
  | zero => exact ⟨l, by simp⟩
  | succ k =>
    exact ⟨List.replicate k 0 ++ 0 :: l, by simp [List.replicate_succ, List.append_assoc]⟩

/-- For `1 ≤ bLength ≤ 255` (any `bLength` a `uint8_t` can hold except the
malformed 0) and a nonempty field capacity, the `int` computation of
`str_copy_len` stays nonnegative and below `2 ^ 32`, so it agrees with the
plain natural-number `min ((bLength - 2) / 2) (strDescSize - 1)`. -/
theorem str_copy_len_eq (bLength strDescSize : Nat) (hb : 1 ≤ bLength) (hb255 : bLength ≤ 255)
    (hN : 1 ≤ strDescSize) :
    str_copy_len bLength strDescSize =
      min ((bLength - USB_STANDARD_DESC_SIZE) / 2) (strDescSize - 1) := by
  unfold str_copy_len
  rcases Nat.lt_or_ge bLength 2 with hlt | hge
  · have hb1 : bLength = 1 := by omega
    subst hb1
    have h1 : (((1 : Nat) : Int) - (USB_STANDARD_DESC_SIZE : Int)).tdiv 2 = 0 := by decide
    rw [h1, min_eq_left (by omega : (0 : Int) ≤ (strDescSize : Int) - 1)]
    have h2 : min ((1 - USB_STANDARD_DESC_SIZE) / 2) (strDescSize - 1) = 0 := by
      simp [USB_STANDARD_DESC_SIZE]
    rw [h2]
    decide
  · have e1 : (bLength : Int) - (USB_STANDARD_DESC_SIZE : Int) =
        ((bLength - USB_STANDARD_DESC_SIZE : Nat) : Int) := by
      simp only [USB_STANDARD_DESC_SIZE]
      push_cast
      omega
    have e2 : (((bLength - USB_STANDARD_DESC_SIZE : Nat) : Int)).tdiv ((2 : Nat) : Int) =
        (((bLength - USB_STANDARD_DESC_SIZE) / 2 : Nat) : Int) := rfl
    have e2' : (((bLength - USB_STANDARD_DESC_SIZE : Nat) : Int)).tdiv (2 : Int) =
        (((bLength - USB_STANDARD_DESC_SIZE) / 2 : Nat) : Int) := by
      exact_mod_cast e2
    have e3 : min ((((bLength - USB_STANDARD_DESC_SIZE) / 2 : Nat) : Int))
        ((strDescSize : Int) - 1) =
        ((min ((bLength - USB_STANDARD_DESC_SIZE) / 2) (strDescSize - 1) : Nat) : Int) := by
      push_cast
      omega
    rw [e1, e2', e3]
    have hnn : (0 : Int) ≤
        ((min ((bLength - USB_STANDARD_DESC_SIZE) / 2) (strDescSize - 1) : Nat) : Int) := by
      positivity
    have hlt2 : ((min ((bLength - USB_STANDARD_DESC_SIZE) / 2) (strDescSize - 1) : Nat) : Int) <
        2 ^ 32 := by
      have h126 : (bLength - USB_STANDARD_DESC_SIZE) / 2 ≤ 126 := by
        simp only [USB_STANDARD_DESC_SIZE]
        omega
      have : min ((bLength - USB_STANDARD_DESC_SIZE) / 2) (strDescSize - 1) ≤ 126 := by omega
      omega
    rw [Int.emod_eq_of_lt hnn hlt2]
    omega

/-- `wcsncpy` writes exactly `n` units. -/
theorem wcsncpy_write_length (src : List Nat) (n : Nat) :
    (wcsncpy_write src n).length = n := by
  simp [wcsncpy_write]

/-- The extent of the region written by one string-field copy: the
`wcsncpy` region of `str_copy_len` units, the terminator, and whatever of
the destination lies beyond them. -/
theorem copy_str_field_length_eq (dst0 src : List Nat) (bLength strDescSize : Nat) :
    (copy_str_field dst0 src bLength strDescSize).length =
      str_copy_len bLength strDescSize + 1 +
        (dst0.length - (str_copy_len bLength strDescSize + 1)) := by
  simp only [copy_str_field, List.length_append, wcsncpy_write_length, List.length_cons,
    List.length_drop]
  omega

/-- For a well-formed `bLength`, the copy stays inside the fixed-size
destination field: its length is unchanged. -/
theorem copy_str_field_length (dst0 src : List Nat) (bLength strDescSize : Nat)
    (hb : 1 ≤ bLength) (hb255 : bLength ≤ 255) (hN : 1 ≤ strDescSize)
    (hd : dst0.length = strDescSize) :
    (copy_str_field dst0 src bLength strDescSize).length = strDescSize := by
  have hle : str_copy_len bLength strDescSize ≤ strDescSize - 1 := by
    rw [str_copy_len_eq bLength strDescSize hb hb255 hN]
    exact min_le_right _ _
  rw [copy_str_field_length_eq, hd]
  omega

/-- Every field produced by `copy_str_field` with a well-formed `bLength`
consists of the source string truncated to `str_copy_len` units, followed
by a terminator: the written characters never exceed `strDescSize - 1`
and a null terminator is always present. -/
theorem copy_str_field_spec (dst0 src : List Nat) (bLength strDescSize : Nat)
    (hb : 1 ≤ bLength) (hb255 : bLength ≤ 255) (hN : 1 ≤ strDescSize) :
    ∃ tail,
      copy_str_field dst0 src bLength strDescSize =
        ((src.takeWhile (fun c => c ≠ 0)).take (str_copy_len bLength strDescSize)) ++ 0 :: tail ∧
      ((src.takeWhile (fun c => c ≠ 0)).take (str_copy_len bLength strDescSize)).length ≤
        strDescSize - 1 := by
  obtain ⟨t, ht⟩ :=
    append_pad_zero ((src.takeWhile (fun c => c ≠ 0)).take (str_copy_len bLength strDescSize))
      (str_copy_len bLength strDescSize -
        ((src.takeWhile (fun c => c ≠ 0)).take (str_copy_len bLength strDescSize)).length)
      (dst0.drop (str_copy_len bLength strDescSize + 1))
  refine ⟨t, ?_, ?_⟩
  · exact ht
  · rw [List.length_take]
    have : str_copy_len bLength strDescSize ≤ strDescSize - 1 := by
      rw [str_copy_len_eq bLength strDescSize hb hb255 hN]
      exact min_le_right _ _
    omega

/-! ## Claims -/

/-- C1: the claim states that a bulk transfer whose completion semaphore is
not signalled within the 5000 ms timeout halts and flushes the endpoint
exactly once and ultimately returns a timed-out/internal-error
classification, never blocking indefinitely outside the single post-halt
recovery wait.  The code refutes this: `msc_bulk_transfer` calls
`wait_for_transfer_done` a second time when the first result is not
`completed` (msc_host.c lines 495-496), and the second call finds the
one-shot semaphore already consumed and no transfer in flight, so it times
out again, halts and flushes the endpoint a second time, and then blocks
forever in its unbounded recovery take.  Concretely: an OUT transfer of
one byte whose completion does not arrive within the bounded wait ends in
a permanent block with two halt+flush operations, not in a return. -/
theorem C1_timeout_double_halt_flush_hang :
    msc_bulk_transfer ⟨0, 129, 64, 2⟩ 64 [7] 1 MscEndpoint.epOut
      ⟨EspErr.ok, Arrival.late, TransferStatus.completed, TransferStatus.completed, []⟩ =
    BulkOut.hangs 1 2 := by decide

/-- C2 (amended): for every `timeout_ms`, on a device that never reports
ready — TEST-UNIT-READY failing every time with a transient sense key —
the readiness protocol issues exactly `max(1, timeout_ms / 100) + 1`
TEST-UNIT-READY iterations (one more than the claimed
`max(1, timeout_ms / 100)`, because the `while (trials-- && err)`
condition reads the budget before decrementing it) and returns a
failure. -/
theorem C2_never_ready_iteration_count (unitReady senseErr : Nat → EspErr)
    (senseKey : Nat → Nat) (timeout_ms : Nat)
    (h1 : ∀ i, unitReady i ≠ EspErr.ok)
    (h2 : ∀ i, senseErr i = EspErr.ok)
    (h3 : ∀ i, sense_key_transient (senseKey i) = true) :
    (msc_wait_for_ready_state unitReady senseErr senseKey timeout_ms).2 =
      max 1 (timeout_ms / 100) + 1 ∧
    (msc_wait_for_ready_state unitReady senseErr senseKey timeout_ms).1 ≠ EspErr.ok := by
  unfold msc_wait_for_ready_state
  rw [msc_wait_ready_loop_never_ready unitReady senseErr senseKey h1 h2 h3]
  exact ⟨by simp, h1 _⟩

theorem C2_never_ready_iteration_count_witness :
    (msc_wait_for_ready_state (fun _ => EspErr.fail) (fun _ => EspErr.ok) (fun _ => 2) 0).2 = 2 ∧
    (msc_wait_for_ready_state (fun _ => EspErr.fail) (fun _ => EspErr.ok) (fun _ => 2) 0).1 ≠
      EspErr.ok := by
  have h := C2_never_ready_iteration_count (fun _ => EspErr.fail) (fun _ => EspErr.ok)
    (fun _ => 2) 0 (fun _ => (by decide : EspErr.fail ≠ EspErr.ok)) (fun _ => rfl)
    (fun _ => (by decide : sense_key_transient 2 = true))
  simpa using h

/-- C2 counterexample: at the driver's own readiness timeout of 3000 ms, a
never-ready device with the transient NOT-READY sense key sees 31
TEST-UNIT-READY iterations, while the claim predicts exactly
`max(1, 3000 / 100) = 30`. -/
theorem C2_iteration_count_counterexample :
    (msc_wait_for_ready_state (fun _ => EspErr.fail) (fun _ => EspErr.ok)
        (fun _ => MSC_NOT_READY) 3000).2 = 31 ∧
    max 1 (3000 / 100) = 30 ∧ (31 : Nat) ≠ 30 := by decide

/-- C3 (amended): for every configuration descriptor containing no
interface matching the mass-storage/SCSI/bulk-only triple, classification
reports a non-match (boolean false, not an error); full configuration
extraction, however, does not return the not-supported error — it fails
the `assert(ifc_desc)` on msc_host.c line 123 (the not-supported error is
returned only when a matching interface is present but one of the two
endpoint descriptors is missing). -/
theorem C3_no_interface_classification_and_extraction (blob : List DescItem)
    (h : ∀ d, DescItem.iface d ∈ blob → iface_matches d = false) :
    is_mass_storage_device blob = false ∧
    extract_config_from_descriptor blob = ExtractOutcome.assertFail := by
  have h0 : find_msc_interface blob = none := by
    have h1 := find_msc_interface_append blob [] h
    simpa using h1
  constructor
  · simp [is_mass_storage_device, h0]
  · simp [extract_config_from_descriptor, h0]

theorem C3_no_interface_classification_and_extraction_witness :
    is_mass_storage_device [DescItem.other 4] = false ∧
    extract_config_from_descriptor [DescItem.other 4] = ExtractOutcome.assertFail :=
  C3_no_interface_classification_and_extraction [DescItem.other 4]
    (fun _ hd => by simp at hd)

/-- C3 counterexample: on a descriptor blob with no matching interface
(here a single HID-class descriptor record), classification is false as
claimed, but extraction ends in the assertion failure, not in the claimed
not-supported error. -/
theorem C3_extraction_not_supported_counterexample :
    is_mass_storage_device [DescItem.other 33] = false ∧
    extract_config_from_descriptor [DescItem.other 33] = ExtractOutcome.assertFail ∧
    ExtractOutcome.assertFail ≠ ExtractOutcome.notSupported := by decide

/-- C4: the claim states that the status obtained after waiting maps to
the caller-visible result as completed ⇒ success, stall ⇒ the distinct
stall error, anything else ⇒ the generic internal error.  The code refutes
the stall branch: because the non-completed path re-invokes
`wait_for_transfer_done` (msc_host.c line 496), which consumes the
already-taken one-shot semaphore, a transfer that completes with `stall`
status makes the second invocation time out, halt and flush the idle
endpoint, and block forever — `ESP_ERR_MSC_STALL` is never returned.
Concretely: a stall completion arriving before the first wait ends in a
permanent block after one extra halt+flush instead of the stall error. -/
theorem C4_stall_never_returns_stall_error :
    msc_bulk_transfer ⟨0, 129, 64, 2⟩ 64 [7] 1 MscEndpoint.epOut
      ⟨EspErr.ok, Arrival.beforeWait, TransferStatus.stall, TransferStatus.completed, []⟩ =
    BulkOut.hangs 1 1 := by decide

/-- C5: for every configuration descriptor containing a matching
bulk-only-transport mass-storage interface followed by one IN and one OUT
bulk endpoint — in either order, possibly separated by non-endpoint
descriptors and preceded by non-matching descriptors — extraction assigns
the IN endpoint's address and max packet size to the bulk-in slot and the
OUT endpoint's address to the bulk-out slot, deciding by the direction bit
of the endpoint address regardless of which endpoint descriptor appears
first. -/
theorem C5_endpoint_order_irrelevant
    (pre mid1 mid2 suf : List DescItem) (I : IfaceDesc) (A B : EpDesc)
    (hpre : ∀ d, DescItem.iface d ∈ pre → iface_matches d = false)
    (hI : iface_matches I = true)
    (hm1 : ∀ e, DescItem.endpoint e ∈ mid1 → False)
    (hm2 : ∀ e, DescItem.endpoint e ∈ mid2 → False)
    (hA : is_in_endpoint A.bEndpointAddress = true)
    (hB : is_in_endpoint B.bEndpointAddress = false) :
    extract_config_from_descriptor
        (pre ++ DescItem.iface I ::
          (mid1 ++ DescItem.endpoint A :: (mid2 ++ DescItem.endpoint B :: suf))) =
      ExtractOutcome.ok
        ⟨I.bInterfaceNumber, A.bEndpointAddress, A.wMaxPacketSize, B.bEndpointAddress⟩ ∧
    extract_config_from_descriptor
        (pre ++ DescItem.iface I ::
          (mid1 ++ DescItem.endpoint B :: (mid2 ++ DescItem.endpoint A :: suf))) =
      ExtractOutcome.ok
        ⟨I.bInterfaceNumber, A.bEndpointAddress, A.wMaxPacketSize, B.bEndpointAddress⟩ := by
  constructor
  · unfold extract_config_from_descriptor
    rw [find_msc_interface_append pre _ hpre]
    simp only [find_msc_interface, hI, if_true]
    rw [next_endpoint_desc_append mid1 _ hm1]
    simp only [next_endpoint_desc]
    rw [next_endpoint_desc_append mid2 _ hm2]
    simp only [next_endpoint_desc]
    simp [assign_endpoint, hA, hB]
  · unfold extract_config_from_descriptor
    rw [find_msc_interface_append pre _ hpre]
    simp only [find_msc_interface, hI, if_true]
    rw [next_endpoint_desc_append mid1 _ hm1]
    simp only [next_endpoint_desc]
    rw [next_endpoint_desc_append mid2 _ hm2]
    simp only [next_endpoint_desc]
    simp [assign_endpoint, hA, hB]

theorem C5_endpoint_order_irrelevant_witness :
    extract_config_from_descriptor
        ([DescItem.other 9] ++ DescItem.iface ⟨0, 8, 6, 80⟩ ::
          ([DescItem.other 36] ++ DescItem.endpoint ⟨129, 64⟩ ::
            ([] ++ DescItem.endpoint ⟨2, 512⟩ :: [DescItem.other 5]))) =
      ExtractOutcome.ok ⟨0, 129, 64, 2⟩ ∧
    extract_config_from_descriptor
        ([DescItem.other 9] ++ DescItem.iface ⟨0, 8, 6, 80⟩ ::
          ([DescItem.other 36] ++ DescItem.endpoint ⟨2, 512⟩ ::
            ([] ++ DescItem.endpoint ⟨129, 64⟩ :: [DescItem.other 5]))) =
      ExtractOutcome.ok ⟨0, 129, 64, 2⟩ :=
  C5_endpoint_order_irrelevant [DescItem.other 9] [DescItem.other 36] [] [DescItem.other 5]
    ⟨0, 8, 6, 80⟩ ⟨129, 64⟩ ⟨2, 512⟩
    (fun _ hd => by simp at hd) (by decide)
    (fun _ he => by simp at he) (fun _ he => by simp at he)
    (by decide) (by decide)

/-- C6: for every bulk transfer whose size does not exceed the
pre-allocated buffer capacity, the submitted byte count is exactly `size`
when the selected endpoint is an OUT endpoint and `size` rounded up to the
next multiple of the bulk-in max packet size when it is an IN endpoint;
and on a successful IN transfer exactly `size` bytes of the scratch
buffer are copied back over the caller's buffer, the remainder of the
caller's buffer being left unchanged. -/
theorem C6_submitted_bytes_and_copy_back (cfg : MscConfig) (cap : Nat) (data : List Nat)
    (size : Nat) (ep : MscEndpoint) (env : BulkEnv) (hsz : size ≤ cap) :
    (is_in_endpoint (selected_endpoint cfg ep) = false →
      msc_bulk_num_bytes cfg size ep = size) ∧
    (is_in_endpoint (selected_endpoint cfg ep) = true →
      msc_bulk_num_bytes cfg size ep = usb_round_up_to_mps size cfg.bulk_in_mps) ∧
    (∀ e nb hf cd, msc_bulk_transfer cfg cap data size ep env = BulkOut.ret e nb hf cd →
      nb = msc_bulk_num_bytes cfg size ep) ∧
    (∀ nb hf cd, msc_bulk_transfer cfg cap data size ep env = BulkOut.ret EspErr.ok nb hf cd →
      cd = if is_in_endpoint (selected_endpoint cfg ep) then
        env.bufAfter.take size ++ data.drop size else data) := by
  refine ⟨fun h => by simp [msc_bulk_num_bytes, h],
    fun h => by simp [msc_bulk_num_bytes, h], ?_, ?_⟩
  · intro e nb hf cd h
    simp only [msc_bulk_transfer, hsz, if_true] at h
    split at h
    · exact absurd h (by simp)
    · split at h
      · exact absurd h (by simp)
      · split at h
        · injection h with h1 h2 h3 h4
          exact h2.symm
        · split at h
          · injection h with h1 h2 h3 h4
            exact h2.symm
          · exact absurd h (by simp)
  · intro nb hf cd h
    simp only [msc_bulk_transfer, hsz, if_true] at h
    split at h
    · exact absurd h (by simp)
    · split at h
      · exact absurd h (by simp)
      · split at h
        · injection h with h1 h2 h3 h4
          exact h4.symm
        · split at h
          · injection h with h1 h2 h3 h4
            exfalso
            split at h1
            · exact EspErr.noConfusion h1
            · exact EspErr.noConfusion h1
          · exact absurd h (by simp)

theorem C6_submitted_bytes_and_copy_back_witness :
    (2 : Nat) ≤ 512 ∧
    msc_bulk_transfer ⟨0, 129, 64, 2⟩ 512 [1, 2, 3] 2 MscEndpoint.epIn
      ⟨EspErr.ok, Arrival.beforeWait, TransferStatus.completed, TransferStatus.canceled,
        [9, 8, 7]⟩ =
      BulkOut.ret EspErr.ok 64 0 [9, 8, 3] ∧
    ([9, 8, 3] : List Nat) =
      (if is_in_endpoint (selected_endpoint ⟨0, 129, 64, 2⟩ MscEndpoint.epIn) then
        ([9, 8, 7] : List Nat).take 2 ++ ([1, 2, 3] : List Nat).drop 2 else [1, 2, 3]) := by
  refine ⟨by decide, by decide, ?_⟩
  exact (C6_submitted_bytes_and_copy_back ⟨0, 129, 64, 2⟩ 512 [1, 2, 3] 2 MscEndpoint.epIn
    ⟨EspErr.ok, Arrival.beforeWait, TransferStatus.completed, TransferStatus.canceled, [9, 8, 7]⟩
    (by decide)).2.2.2 64 0 [9, 8, 3] (by decide)

/-- C7: every return of the zero-copy bulk transfer — success, stall
error, internal error, or the pre-submit failure — leaves the transfer
object's buffer pointer and buffer size at their pre-call values: every
return statement after the substitution is reached through the `fail:`
label, which restores the backed-up pair first. -/
theorem C7_zero_copy_restores_buffer (cfg : MscConfig) (xfer0 : XferBuf) (dataPtr size : Nat)
    (ep : MscEndpoint) (dma : Bool) (env : BulkEnv) :
    ∀ e b, msc_bulk_transfer_zero_cpy cfg xfer0 dataPtr size ep dma env = ZeroCpyOut.ret e b →
      b = xfer0 := by
  intro e b h
  simp only [msc_bulk_transfer_zero_cpy] at h
  split at h
  · injection h with h1 h2
    exact h2.symm
  · split at h
    · injection h with h1 h2
      exact h2.symm
    · split at h
      · exact absurd h (by simp)
      · split at h
        · injection h with h1 h2
          exact h2.symm
        · split at h
          · injection h with h1 h2
            exact h2.symm
          · exact absurd h (by simp)

theorem C7_zero_copy_restores_buffer_witness :
    msc_bulk_transfer_zero_cpy ⟨0, 129, 64, 2⟩ ⟨100, 64⟩ 200 8 MscEndpoint.epOut true
      ⟨EspErr.ok, Arrival.beforeWait, TransferStatus.completed, TransferStatus.completed, []⟩ =
      ZeroCpyOut.ret EspErr.ok ⟨100, 64⟩ ∧
    (XferBuf.mk 100 64) = ⟨100, 64⟩ :=
  ⟨by decide,
    C7_zero_copy_restores_buffer ⟨0, 129, 64, 2⟩ ⟨100, 64⟩ 200 8 MscEndpoint.epOut true
      ⟨EspErr.ok, Arrival.beforeWait, TransferStatus.completed, TransferStatus.completed, []⟩
      EspErr.ok ⟨100, 64⟩ (by decide)⟩

set_option maxHeartbeats 1000000 in
/-- C8: a second driver install attempted while one is active fails with
the invalid-state error (leaving the system untouched); every failed
install attempt leaves the system state exactly as it was — the singleton
is not published (or is cleared again), the created semaphore is deleted,
the transport client registration is released and the allocated state is
freed — and the first error encountered is returned (no-memory for a
failed semaphore or task creation, the registration error itself for a
failed client registration); a successful install publishes the singleton
and keeps exactly one semaphore, one registration and one allocation. -/
theorem C8_install_reject_and_rollback (c : MscDriverCfg) (e : InstallEnv) (s : SysSt) :
    (c.cfgNull = false → c.cbNull = false → (c.create_backround_task && c.stackZero) = false →
      (c.create_backround_task && c.prioZero) = false → s.installed = true →
      msc_host_install c e s = (EspErr.invalidState, s)) ∧
    (∀ r s', msc_host_install c e s = (r, s') → r ≠ EspErr.ok → s' = s) ∧
    (c.cfgNull = false → c.cbNull = false → (c.create_backround_task && c.stackZero) = false →
      (c.create_backround_task && c.prioZero) = false → s.installed = false →
      e.callocOk = true → e.semOk = false →
      msc_host_install c e s = (EspErr.noMem, s)) ∧
    (c.cfgNull = false → c.cbNull = false → (c.create_backround_task && c.stackZero) = false →
      (c.create_backround_task && c.prioZero) = false → s.installed = false →
      e.callocOk = true → e.semOk = true → e.registerErr ≠ EspErr.ok →
      msc_host_install c e s = (e.registerErr, s)) ∧
    (c.cfgNull = false → c.cbNull = false → (c.create_backround_task && c.stackZero) = false →
      (c.create_backround_task && c.prioZero) = false → s.installed = false →
      e.callocOk = true → e.semOk = true → e.registerErr = EspErr.ok →
      c.create_backround_task = true → e.taskOk = false →
      msc_host_install c e s = (EspErr.noMem, s)) ∧
    (∀ r s', msc_host_install c e s = (r, s') → r = EspErr.ok →
      s' = ⟨true, s.sems + 1, s.regs + 1, s.allocs + 1⟩) := by
  obtain ⟨si, ss, sr, sa⟩ := s
  refine ⟨?_, ?_, ?_, ?_, ?_, ?_⟩
  · intro h1 h2 h3 h4 h5
    cases hc : c.create_backround_task <;> simp_all [msc_host_install]
  · intro r s' heq hne
    simp only [msc_host_install] at heq
    split_ifs at heq <;>
      (injection heq with heq1 heq2; subst heq1; subst heq2) <;>
      first
        | rfl
        | (exact absurd rfl hne)
        | simp_all
  · intro h1 h2 h3 h4 h5 h6 h7
    cases hc : c.create_backround_task <;> simp_all [msc_host_install]
  · intro h1 h2 h3 h4 h5 h6 h7 h8
    cases hc : c.create_backround_task <;> simp_all [msc_host_install]
  · intro h1 h2 h3 h4 h5 h6 h7 h8 h9 h10
    simp_all [msc_host_install]
  · intro r s' heq hok
    simp only [msc_host_install] at heq
    split_ifs at heq <;>
      (injection heq with heq1 heq2; subst heq1; subst heq2) <;>
      first
        | rfl
        | (exact absurd hok (by simp))
        | simp_all

theorem C8_install_reject_and_rollback_witness :
    msc_host_install ⟨false, false, false, false, false⟩ ⟨true, true, EspErr.ok, true⟩
      ⟨true, 0, 0, 0⟩ = (EspErr.invalidState, ⟨true, 0, 0, 0⟩) :=
  (C8_install_reject_and_rollback ⟨false, false, false, false, false⟩
    ⟨true, true, EspErr.ok, true⟩ ⟨true, 0, 0, 0⟩).1 rfl rfl rfl rfl rfl

/-- C9 (amended): whenever device info is successfully queried, each of
the manufacturer, product and serial UTF-16 strings written to the
caller's info structure is the source string truncated to at most
`strDescSize - 1` characters (the fixed maximum character count) followed
by a null terminator, and the copy stays inside the fixed-size field —
for every string-descriptor length from 1 to 255 except the malformed
`bLength = 0`: there the `int` computation `(0 - 2) / 2 = -1` wraps to
`SIZE_MAX` on assignment to `size_t`, and the copy overruns the field
with no in-bounds terminator (see the counterexample). -/
theorem C9_info_strings_truncated_terminated (strDescSize : Nat) (env : DevInfoEnv)
    (block_size block_count : Nat) (m0 p0 s0 : List Nat) (info : MscDeviceInfo)
    (hN : 1 ≤ strDescSize)
    (hm1 : 1 ≤ env.manufacturer.bLength) (hm255 : env.manufacturer.bLength ≤ 255)
    (hp1 : 1 ≤ env.product.bLength) (hp255 : env.product.bLength ≤ 255)
    (hs1 : 1 ≤ env.serial.bLength) (hs255 : env.serial.bLength ≤ 255)
    (hm0 : m0.length = strDescSize) (hp0 : p0.length = strDescSize)
    (hs0 : s0.length = strDescSize)
    (hok : msc_host_get_device_info strDescSize env block_size block_count m0 p0 s0 =
      DevInfoOut.ok info) :
    ((∃ t, info.iManufacturer =
        ((env.manufacturer.wData.takeWhile (fun c => c ≠ 0)).take
          (str_copy_len env.manufacturer.bLength strDescSize)) ++ 0 :: t ∧
      ((env.manufacturer.wData.takeWhile (fun c => c ≠ 0)).take
        (str_copy_len env.manufacturer.bLength strDescSize)).length ≤ strDescSize - 1) ∧
      info.iManufacturer.length = strDescSize) ∧
    ((∃ t, info.iProduct =
        ((env.product.wData.takeWhile (fun c => c ≠ 0)).take
          (str_copy_len env.product.bLength strDescSize)) ++ 0 :: t ∧
      ((env.product.wData.takeWhile (fun c => c ≠ 0)).take
        (str_copy_len env.product.bLength strDescSize)).length ≤ strDescSize - 1) ∧
      info.iProduct.length = strDescSize) ∧
    ((∃ t, info.iSerialNumber =
        ((env.serial.wData.takeWhile (fun c => c ≠ 0)).take
          (str_copy_len env.serial.bLength strDescSize)) ++ 0 :: t ∧
      ((env.serial.wData.takeWhile (fun c => c ≠ 0)).take
        (str_copy_len env.serial.bLength strDescSize)).length ≤ strDescSize - 1) ∧
      info.iSerialNumber.length = strDescSize) := by
  simp only [msc_host_get_device_info] at hok
  split_ifs at hok
  injection hok with hinfo
  subst hinfo
  exact
    ⟨⟨copy_str_field_spec m0 env.manufacturer.wData env.manufacturer.bLength strDescSize
        hm1 hm255 hN,
      copy_str_field_length m0 env.manufacturer.wData env.manufacturer.bLength strDescSize
        hm1 hm255 hN hm0⟩,
     ⟨copy_str_field_spec p0 env.product.wData env.product.bLength strDescSize hp1 hp255 hN,
      copy_str_field_length p0 env.product.wData env.product.bLength strDescSize
        hp1 hp255 hN hp0⟩,
     ⟨copy_str_field_spec s0 env.serial.wData env.serial.bLength strDescSize hs1 hs255 hN,
      copy_str_field_length s0 env.serial.wData env.serial.bLength strDescSize
        hs1 hs255 hN hs0⟩⟩

/-- C9 counterexample: the claim as stated covers every possible
string-descriptor length, but at `bLength = 0` the copy length computed in
`int` arithmetic is `MIN((0 - 2) / 2, 31) = -1`, which the `size_t`
assignment wraps to `SIZE_MAX = 2 ^ 32 - 1`: `wcsncpy` then writes a
`2 ^ 32`-unit region through the 32-unit field — no truncation to the
fixed maximum character count and no in-bounds null terminator. -/
theorem C9_malformed_length_counterexample :
    str_copy_len 0 32 = 4294967295 ∧
    (copy_str_field (List.replicate 32 7) [72, 0] 0 32).length = 4294967296 ∧
    ¬ (copy_str_field (List.replicate 32 7) [72, 0] 0 32).length ≤ 32 := by
  have h0 : str_copy_len 0 32 = 4294967295 := by decide
  have h1 := copy_str_field_length_eq (List.replicate 32 7) [72, 0] 0 32
  rw [h0, List.length_replicate] at h1
  refine ⟨h0, ?_, ?_⟩ <;> omega

theorem C9_info_strings_truncated_terminated_witness :
    ((∃ t, copy_str_field (List.replicate 32 7) [72, 105, 0] 10 32 =
        ((([72, 105, 0] : List Nat).takeWhile (fun c => c ≠ 0)).take (str_copy_len 10 32)) ++
          0 :: t ∧
      ((([72, 105, 0] : List Nat).takeWhile (fun c => c ≠ 0)).take
        (str_copy_len 10 32)).length ≤ 31) ∧
      (copy_str_field (List.replicate 32 7) [72, 105, 0] 10 32).length = 32) ∧
    ((∃ t, copy_str_field (List.replicate 32 7) [80] 6 32 =
        ((([80] : List Nat).takeWhile (fun c => c ≠ 0)).take (str_copy_len 6 32)) ++ 0 :: t ∧
      ((([80] : List Nat).takeWhile (fun c => c ≠ 0)).take (str_copy_len 6 32)).length ≤ 31) ∧
      (copy_str_field (List.replicate 32 7) [80] 6 32).length = 32) ∧
    ((∃ t, copy_str_field (List.replicate 32 7) [83, 66] 255 32 =
        ((([83, 66] : List Nat).takeWhile (fun c => c ≠ 0)).take (str_copy_len 255 32)) ++
          0 :: t ∧
      ((([83, 66] : List Nat).takeWhile (fun c => c ≠ 0)).take
        (str_copy_len 255 32)).length ≤ 31) ∧
      (copy_str_field (List.replicate 32 7) [83, 66] 255 32).length = 32) :=
  C9_info_strings_truncated_terminated 32
    ⟨false, false, EspErr.ok, EspErr.ok, 1, 2, ⟨10, [72, 105, 0]⟩, ⟨6, [80]⟩, ⟨255, [83, 66]⟩⟩
    512 2048 (List.replicate 32 7) (List.replicate 32 7) (List.replicate 32 7)
    { idVendor := 1, idProduct := 2, sector_size := 512, sector_count := 2048,
      iManufacturer := copy_str_field (List.replicate 32 7) [72, 105, 0] 10 32,
      iProduct := copy_str_field (List.replicate 32 7) [80] 6 32,
      iSerialNumber := copy_str_field (List.replicate 32 7) [83, 66] 255 32 }
    (by decide) (by decide) (by decide) (by decide) (by decide) (by decide) (by decide)
    (by simp) (by simp) (by simp) rfl

set_option maxHeartbeats 2000000 in
/-- C10: every call to `msc_host_install_device` that returns an error
leaves the caller's `*msc_device_handle` location untouched; the location
is written exactly once, and only on the path that returns success. -/
theorem C10_handle_written_only_on_success (env : InstallDevEnv) :
    ∀ e w, msc_host_install_device env = InstallDevOutcome.ret e w →
      w = if e = EspErr.ok then 1 else 0 := by
  intro e w h
  simp only [msc_host_install_device] at h
  repeat' split at h
  all_goals
    first
      | (injection h with h1 h2; subst h1; subst h2; simp_all)
      | (injection h)

theorem C10_handle_written_only_on_success_witness :
    msc_host_install_device
      ⟨true, true, true, true, EspErr.ok, EspErr.ok,
        [DescItem.iface ⟨0, 8, 6, 80⟩, DescItem.endpoint ⟨129, 64⟩, DescItem.endpoint ⟨2, 64⟩],
        EspErr.ok, EspErr.ok, EspErr.ok, fun _ => EspErr.ok, fun _ => EspErr.ok, fun _ => 0,
        EspErr.ok⟩ = InstallDevOutcome.ret EspErr.ok 1 ∧
    (1 : Nat) = if EspErr.ok = EspErr.ok then 1 else 0 := by
  refine ⟨by decide, ?_⟩
  exact C10_handle_written_only_on_success
    ⟨true, true, true, true, EspErr.ok, EspErr.ok,
      [DescItem.iface ⟨0, 8, 6, 80⟩, DescItem.endpoint ⟨129, 64⟩, DescItem.endpoint ⟨2, 64⟩],
      EspErr.ok, EspErr.ok, EspErr.ok, fun _ => EspErr.ok, fun _ => EspErr.ok, fun _ => 0,
      EspErr.ok⟩ EspErr.ok 1 (by decide)
